import Mathlib

/-!
Verification of `src/modular_boost_test/main.cpp`.

The program is a single entry point that creates a `boost::asio::io_context`,
constructs a `steady_timer` with a 2-second expiry, prints a starting message,
registers a completion handler via `async_wait`, prints a waiting message,
runs the event loop, prints a done message, and returns 0.

We embed one run of the program as the list of its observable events in
execution order.  The only nondeterminism is the reactor's: which outcome
(`error_code`) is delivered to the single pending wait, and at which
steady-clock instant it is delivered.  Both are parameters of the run.
Time is modelled as a natural number of seconds on the steady (monotonic)
clock.  The contract of `steady_timer` from the Asio documentation — a
success completion is never delivered before the expiry — is modelled as a
validity condition on the reactor's choice.
-/

namespace ModularBoostTest

/-- Shallow embedding of the `boost::system::error_code` value delivered to
a `steady_timer::async_wait` completion handler: success, or an error
carrying the human-readable description returned by `ec.message()`. -/
inductive ErrorCode where
  | ok : ErrorCode
  | error : String → ErrorCode
deriving DecidableEq, Repr

/-- `static_cast<bool>(ec)`: `true` exactly when the code denotes an error,
so the source's `!ec` test is `isError = false`. -/
def ErrorCode.isError : ErrorCode → Bool
  | .ok => false
  | .error _ => true

/-- `ec.message()`: the human-readable description of the outcome. -/
def ErrorCode.message : ErrorCode → String
  | .ok => "Success"
  | .error m => m

/-- One observable event of a run of `main`, in execution order:
construction of the event-loop context, arming of the timer (its expiry on
the steady clock), a line written to standard output, registration of the
completion handler (`async_wait`), the call to and the return from
`io.run()`, the invocation of the completion handler (with the delivered
outcome and the steady-clock instant of delivery), a line written to
standard error, and process exit with a status code. -/
inductive Event where
  | contextCreated : Event
  | timerArmed : Nat → Event
  | stdoutLine : String → Event
  | handlerRegistered : Event
  | runCalled : Event
  | handlerInvoked : ErrorCode → Nat → Event
  | stderrLine : String → Event
  | runReturned : Event
  | exited : Nat → Event
deriving DecidableEq, Repr

/-- The completion handler lambda of `main.cpp` (lines 14–20):
`if (!ec) { std::cout << "Timer expired! Hello from Boost.Asio!\n"; }
 else { std::cerr << "Timer error: " << ec.message() << "\n"; }`.
It captures nothing; its observable effect is the returned console events. -/
def handler (ec : ErrorCode) : List Event :=
  if ec.isError = false then
    [.stdoutLine "Timer expired! Hello from Boost.Asio!"]
  else
    [.stderrLine ("Timer error: " ++ ec.message)]

/-- The reactor's choice in one run: the outcome delivered to the single
pending wait, and the steady-clock instant at which `io.run()` delivers it. -/
structure RunEnv where
  ec : ErrorCode
  deliverTime : Nat

/-- Contract of `steady_timer` (Asio documented behaviour): a success
completion is delivered no earlier than the timer's expiry.  An error or
cancellation may be delivered at any time. -/
def RunEnv.valid (env : RunEnv) (deadline : Nat) : Prop :=
  env.ec = .ok → deadline ≤ env.deliverTime

/-- Expiry set by `steady_timer timer(io, std::chrono::seconds(2))`
(line 9): the steady-clock time at construction plus 2 seconds. -/
def timerDeadline (constructTime : Nat) : Nat := constructTime + 2

/-- The event trace of one run of `main` (`main.cpp` lines 5–29), given the
steady-clock time at which the timer is constructed and the reactor's
choice of delivered outcome.  In source order: the `io_context` is created
(line 6), the timer is constructed with its 2-second expiry (line 9),
"Starting timer..." is printed (line 11), `async_wait` registers the
handler (line 14), "Waiting for timer..." is printed (line 22), `io.run()`
is entered (line 25) and — being the only place completions execute —
invokes the handler once with the delivered outcome, then returns when no
work remains; finally "Done!" is printed (line 27) and `main` returns 0
(line 28). -/
def main_run (constructTime : Nat) (env : RunEnv) : List Event :=
  [.contextCreated,
   .timerArmed (timerDeadline constructTime),
   .stdoutLine "Starting timer...",
   .handlerRegistered,
   .stdoutLine "Waiting for timer...",
   .runCalled,
   .handlerInvoked env.ec env.deliverTime]
  ++ handler env.ec
  ++ [.runReturned,
      .stdoutLine "Done!",
      .exited 0]

/-- The line carried by a standard-output event, if any. -/
def Event.outLine? : Event → Option String
  | .stdoutLine s => some s
  | _ => none

/-- The line carried by a standard-error event, if any. -/
def Event.errLine? : Event → Option String
  | .stderrLine s => some s
  | _ => none

/-- The lines a trace writes to standard output, in order. -/
def stdoutOf (tr : List Event) : List String := tr.filterMap Event.outLine?

/-- The lines a trace writes to standard error, in order. -/
def stderrOf (tr : List Event) : List String := tr.filterMap Event.errLine?

/-- The completion-handler invocations of a trace: delivered outcome and
steady-clock instant of each, in order. -/
def handlerInvocations (tr : List Event) : List (ErrorCode × Nat) :=
  tr.filterMap fun e => match e with
    | .handlerInvoked ec t => some (ec, t)
    | _ => none

/-- The process-exit events of a trace, in order. -/
def exitEvents (tr : List Event) : List Nat :=
  tr.filterMap fun e => match e with
    | .exited c => some c
    | _ => none

/-- Whether an event is console output (a line on stdout or stderr). -/
def Event.isConsole : Event → Bool
  | .stdoutLine _ => true
  | .stderrLine _ => true
  | _ => false

/-- `subseq l m` decides whether `l` occurs inside `m` as a (not
necessarily contiguous) subsequence, i.e. in `m` in that order. -/
def subseq : List Event → List Event → Bool
  | [], _ => true
  | _ :: _, [] => false
  | a :: l, b :: m => if a = b then subseq l m else subseq (a :: l) m

/-- The setup order asserted by the spec's contract sentence: first the
"starting" message, then the arming of the timer, then the registration of
the completion handler, then the "waiting" message, then the entry into the
event loop — as a subsequence of the trace. -/
def claimedSetupOrder (tr : List Event) (deadline : Nat) : Prop :=
  subseq [.stdoutLine "Starting timer...", .timerArmed deadline,
          .handlerRegistered, .stdoutLine "Waiting for timer...",
          .runCalled] tr = true

/-- C1: on every run on which the wait succeeds, the lines printed to
standard output are exactly "Starting timer...", "Waiting for timer...",
"Timer expired! Hello from Boost.Asio!", "Done!", in that order, and
nothing else. -/
theorem success_stdout_exact (tc : Nat) (env : RunEnv) (h : env.ec = .ok) :
    stdoutOf (main_run tc env) =
      ["Starting timer...", "Waiting for timer...",
       "Timer expired! Hello from Boost.Asio!", "Done!"] := by
  simp [main_run, stdoutOf, handler, h, ErrorCode.isError, Event.outLine?,
    List.filterMap]

theorem success_stdout_exact_witness :
    stdoutOf (main_run 0 ⟨.ok, 2⟩) =
      ["Starting timer...", "Waiting for timer...",
       "Timer expired! Hello from Boost.Asio!", "Done!"] :=
  success_stdout_exact 0 ⟨.ok, 2⟩ rfl

/-- C2: on every run the completion handler is invoked exactly once — the
list of handler invocations is a singleton — and that single invocation
occurs strictly before `io.run()` returns. -/
theorem handler_invoked_once_before_run_returns (tc : Nat) (env : RunEnv) :
    handlerInvocations (main_run tc env) = [(env.ec, env.deliverTime)] ∧
    ∃ pre mid suf, main_run tc env =
      pre ++ [.handlerInvoked env.ec env.deliverTime] ++ mid
          ++ [.runReturned] ++ suf := by
  obtain ⟨ec, t⟩ := env
  cases ec with
  | ok =>
    refine ⟨by simp [main_run, handlerInvocations, handler, ErrorCode.isError,
      List.filterMap], ?_⟩
    exact ⟨[.contextCreated, .timerArmed (timerDeadline tc),
      .stdoutLine "Starting timer...", .handlerRegistered,
      .stdoutLine "Waiting for timer...", .runCalled],
      [.stdoutLine "Timer expired! Hello from Boost.Asio!"],
      [.stdoutLine "Done!", .exited 0], rfl⟩
  | error m =>
    refine ⟨by simp [main_run, handlerInvocations, handler, ErrorCode.isError,
      List.filterMap], ?_⟩
    exact ⟨[.contextCreated, .timerArmed (timerDeadline tc),
      .stdoutLine "Starting timer...", .handlerRegistered,
      .stdoutLine "Waiting for timer...", .runCalled],
      [.stderrLine ("Timer error: " ++ ErrorCode.message (.error m))],
      [.stdoutLine "Done!", .exited 0], rfl⟩

/-- C3: on every run on which the wait errors, standard error receives
exactly the single line "Timer error: <description>"; on a successful run
standard error receives nothing; and in either case the error never
escapes the handler — the program still prints "Done!" as its last output
line and exits with status 0. -/
theorem error_path_handling (tc : Nat) (env : RunEnv) :
    (∀ msg, env.ec = .error msg →
        stderrOf (main_run tc env) = ["Timer error: " ++ msg]) ∧
    (env.ec = .ok → stderrOf (main_run tc env) = []) ∧
    (stdoutOf (main_run tc env)).getLast? = some "Done!" ∧
    exitEvents (main_run tc env) = [0] := by
  obtain ⟨ec, t⟩ := env
  cases ec with
  | ok =>
    refine ⟨fun msg h => by simp at h, fun _ => ?_, ?_, ?_⟩ <;>
      simp [main_run, stderrOf, stdoutOf, exitEvents, handler,
        ErrorCode.isError, Event.errLine?, Event.outLine?, List.filterMap]
  | error m =>
    refine ⟨fun msg h => ?_, fun h => by simp at h, ?_, ?_⟩
    · obtain rfl : m = msg := by
        cases h
        rfl
      simp [main_run, stderrOf, handler, ErrorCode.isError,
        ErrorCode.message, Event.errLine?, List.filterMap]
    · simp [main_run, stdoutOf, handler, ErrorCode.isError,
        Event.outLine?, List.filterMap]
    · simp [main_run, exitEvents, handler, ErrorCode.isError,
        List.filterMap]

theorem error_path_handling_witness :
    stderrOf (main_run 0 ⟨.error "Operation canceled", 1⟩) =
      ["Timer error: " ++ "Operation canceled"] :=
  (error_path_handling 0 ⟨.error "Operation canceled", 1⟩).1
    "Operation canceled" rfl

/-- C4: on every run, whatever outcome the reactor delivers and whenever it
delivers it, the process exits exactly once and with status 0. -/
theorem exit_code_always_zero (tc : Nat) (env : RunEnv) :
    exitEvents (main_run tc env) = [0] := by
  obtain ⟨ec, t⟩ := env
  cases ec <;>
    simp [main_run, exitEvents, handler, ErrorCode.isError, List.filterMap]

/-- C5 (counterexample): the claimed setup order — "starting" message
first, timer armed afterwards — does not hold of the program: on a concrete
run (timer constructed at steady-clock time 0, success delivered at
time 2) the claimed sequence is not a subsequence of the trace, because
the timer is armed (constructed with its 2-second expiry, line 9) before
"Starting timer..." is printed (line 11). -/
theorem claimed_setup_order_fails :
    ¬ claimedSetupOrder (main_run 0 ⟨.ok, 2⟩) (timerDeadline 0) := by
  simp only [claimedSetupOrder]
  decide

/-- C5 (amended): on start the entry point creates the event-loop context
and arms the timer — construction sets its expiry to the construction time
plus 2 seconds — then prints the "starting" message, then registers the
completion handler, then prints the "waiting" message, then enters the
blocking event-loop run; every run's trace begins with exactly this
sequence. -/
theorem setup_order_amended (tc : Nat) (env : RunEnv) :
    ∃ rest, main_run tc env =
      [.contextCreated, .timerArmed (tc + 2),
       .stdoutLine "Starting timer...", .handlerRegistered,
       .stdoutLine "Waiting for timer...", .runCalled] ++ rest := by
  refine ⟨Event.handlerInvoked env.ec env.deliverTime :: (handler env.ec ++
      [Event.runReturned, Event.stdoutLine "Done!", Event.exited 0]), ?_⟩
  rfl

/-- C6: on the success path, the completion handler's single invocation
happens at least 2 seconds of steady-clock time after program start:
the timer's deadline is its construction time plus 2 seconds, the program
starts no later than the construction, and a success completion is
delivered no earlier than the deadline. -/
theorem handler_invocation_delay (t0 tc : Nat) (env : RunEnv)
    (hstart : t0 ≤ tc) (hvalid : env.valid (timerDeadline tc))
    (hok : env.ec = .ok) :
    handlerInvocations (main_run tc env) = [(ErrorCode.ok, env.deliverTime)] ∧
    t0 + 2 ≤ env.deliverTime := by
  have hd := hvalid hok
  refine ⟨?_, ?_⟩
  · simp [main_run, handlerInvocations, handler, hok, ErrorCode.isError,
      List.filterMap]
  · simp only [timerDeadline] at hd
    omega

theorem handler_invocation_delay_witness :
    handlerInvocations (main_run 0 ⟨.ok, 5⟩) = [(ErrorCode.ok, 5)] ∧
    0 + 2 ≤ 5 :=
  handler_invocation_delay 0 0 ⟨.ok, 5⟩ (Nat.le_refl 0)
    (fun _ => by decide) rfl

/-- C7: for every possible outcome value, every event produced by the
completion handler is console output (a line on stdout or stderr); the
handler — a pure function of the outcome alone, capturing no state —
arms no timer, registers no further work, and touches nothing else. -/
theorem handler_console_only (ec : ErrorCode) :
    ∀ e ∈ handler ec, e.isConsole = true := by
  cases ec <;>
    simp [handler, ErrorCode.isError, Event.isConsole]

theorem handler_console_only_witness :
    Event.isConsole (.stdoutLine "Timer expired! Hello from Boost.Asio!")
      = true :=
  handler_console_only .ok
    (.stdoutLine "Timer expired! Hello from Boost.Asio!") (by decide)

/-- C8: any two runs that take the same outcome branch — the reactor
delivers equal outcome values, whatever the construction times and
delivery instants — produce identical stdout and stderr line sequences;
the output depends on nothing else (no input, flags, environment, or
state carried across runs appears in the model of a run). -/
theorem deterministic_output (tc tc' : Nat) (env env' : RunEnv)
    (h : env.ec = env'.ec) :
    stdoutOf (main_run tc env) = stdoutOf (main_run tc' env') ∧
    stderrOf (main_run tc env) = stderrOf (main_run tc' env') := by
  obtain ⟨ec, t⟩ := env
  obtain ⟨ec', t'⟩ := env'
  simp only at h
  subst h
  constructor <;>
    simp [main_run, stdoutOf, stderrOf, Event.outLine?, Event.errLine?,
      List.filterMap]

theorem deterministic_output_witness :
    stdoutOf (main_run 0 ⟨.ok, 2⟩) = stdoutOf (main_run 7 ⟨.ok, 11⟩) ∧
    stderrOf (main_run 0 ⟨.ok, 2⟩) = stderrOf (main_run 7 ⟨.ok, 11⟩) :=
  deterministic_output 0 7 ⟨.ok, 2⟩ ⟨.ok, 11⟩ rfl

/-- C9: for every outcome value the handler emits exactly one message —
the success line on stdout when the outcome is no error, the
"Timer error: <description>" line on stderr when it is an error — never
both and never neither: its stdout and stderr line counts sum to one. -/
theorem handler_exactly_one_message (ec : ErrorCode) :
    (ec.isError = false →
        stdoutOf (handler ec) = ["Timer expired! Hello from Boost.Asio!"] ∧
        stderrOf (handler ec) = []) ∧
    (ec.isError = true →
        stdoutOf (handler ec) = [] ∧
        stderrOf (handler ec) = ["Timer error: " ++ ec.message]) ∧
    (stdoutOf (handler ec)).length + (stderrOf (handler ec)).length = 1 := by
  cases ec <;>
    simp [handler, ErrorCode.isError, ErrorCode.message, stdoutOf, stderrOf,
      Event.outLine?, Event.errLine?, List.filterMap]

theorem handler_exactly_one_message_witness :
    stdoutOf (handler .ok) = ["Timer expired! Hello from Boost.Asio!"] ∧
    stderrOf (handler .ok) = [] :=
  (handler_exactly_one_message .ok).1 rfl

/-- C10: registering the wait never runs the handler synchronously: in
every run the handler's invocation and all of its output lie strictly
after the entry into `io.run()`, while the registration and both the
"Starting timer..." and "Waiting for timer..." lines lie before it. -/
theorem no_synchronous_handler_invocation (tc : Nat) (env : RunEnv) :
    ∃ pre rest, main_run tc env =
        pre ++ [.runCalled, .handlerInvoked env.ec env.deliverTime]
            ++ handler env.ec ++ rest ∧
      stdoutOf pre = ["Starting timer...", "Waiting for timer..."] ∧
      Event.handlerRegistered ∈ pre := by
  refine ⟨[.contextCreated, .timerArmed (timerDeadline tc),
    .stdoutLine "Starting timer...", .handlerRegistered,
    .stdoutLine "Waiting for timer..."],
    [.runReturned, .stdoutLine "Done!", .exited 0], rfl, ?_, ?_⟩
  · simp [stdoutOf, Event.outLine?, List.filterMap]
  · simp

end ModularBoostTest
